import Mathlib

/-!
Shallow embedding of the EV-charging authorization-and-pricing core
(`src/auth.ts`, `authorizeAndPrice`) together with the entity schema it
reads (`src/schema.ts`-style mongoose models).  ObjectIds are modelled as
`String`, JS numbers as `ℚ`, the three asynchronous store lookups as
functions into `Except Unit` so that a throwing collaborator is an
`Except.error`, and the surrounding try/catch as a `match` on that
`Except`.
-/

namespace BrimCharges

/-- `AccessType` enum from the schema.  `protected` and `private` are Lean
keywords, hence the trailing underscore. -/
inductive AccessType where
  | public
  | communal
  | protected_
  | private_
deriving DecidableEq, Repr

/-- `BillableType` enum from the schema. -/
inductive BillableType where
  | billable
  | non_billable
deriving DecidableEq, Repr

/-- One element of a tariff's `timeRules` array: a half-open hour window
with a rate multiplier. -/
structure TimeRule where
  startHour : Nat
  endHour : Nat
  rateMultiplier : ℚ
deriving DecidableEq, Repr

/-- A `Tariff` document: prices one (charger, group) pair.  `timeRules` is
an optional array in the schema; a missing array is `none`. -/
structure Tariff where
  charger : String
  group : String
  ratePerKwh : ℚ
  timeRules : Option (List TimeRule)
deriving DecidableEq, Repr

/-- A `UserGroup` document.  `id` embeds the mongoose `_id`. -/
structure UserGroup where
  id : String
  users : List String
  accessibleSites : List String
deriving DecidableEq, Repr

/-- A `Charger` document (fields `authorizeAndPrice` and the schema
declare; `site` is the owning site's id). -/
structure Charger where
  site : String
  accessType : AccessType
  billableType : Option BillableType
  powerOutput : ℚ
  tariffs : List String
deriving DecidableEq, Repr

/-- The only part of a JS `Date` the evaluator reads: `getHours()`. -/
structure Date where
  getHours : Nat
deriving DecidableEq, Repr

/-- The `Result` interface of `auth.ts`: `allowed` plus optional `reason`
and `ratePerKwh`. -/
structure Result where
  allowed : Bool
  reason : Option String
  ratePerKwh : Option ℚ
deriving DecidableEq, Repr

/-- The external entity store: the three read-only lookups
(`Charger.findById`, `UserGroup.find {users: userId}`,
`Tariff.find {charger, group $in groupIds}`).  `Except.error ()` models a
thrown exception / malformed data. -/
structure Store where
  findCharger : String → Except Unit (Option Charger)
  findUserGroups : String → Except Unit (List UserGroup)
  findTariffs : String → List String → Except Unit (List Tariff)

/-- The private/non-billable special case tested at lines 22-25. -/
def isPrivateNonBillable (charger : Charger) : Prop :=
  charger.accessType = AccessType.private_ ∧
    charger.billableType = some BillableType.non_billable

instance (charger : Charger) : Decidable (isPrivateNonBillable charger) := by
  unfold isPrivateNonBillable; infer_instance

/-- The time-rule match predicate of line 75:
`currentHour >= rule.startHour && currentHour < rule.endHour`. -/
def hourMatches (currentHour : Nat) (rule : TimeRule) : Bool :=
  decide (rule.startHour ≤ currentHour) && decide (currentHour < rule.endHour)

/-- The per-tariff body of the pricing loop (lines 66-83): the effective
rate is the base rate, multiplied by the first matching time rule's
multiplier when `timeRules` is present and some rule matches. -/
def effectiveRate (currentHour : Nat) (tariff : Tariff) : ℚ :=
  match tariff.timeRules with
  | none => tariff.ratePerKwh
  | some rules =>
    match rules.find? (hourMatches currentHour) with
    | some timeRule => tariff.ratePerKwh * timeRule.rateMultiplier
    | none => tariff.ratePerKwh

/-- The `for`-loop of lines 65-89: fold the tariff list, keeping the
lowest effective rate seen so far (strict `<` comparison, line 86). -/
def bestRateLoop (currentHour : Nat) : List Tariff → ℚ → ℚ
  | [], bestRate => bestRate
  | tariff :: rest, bestRate =>
    let er := effectiveRate currentHour tariff
    bestRateLoop currentHour rest (if er < bestRate then er else bestRate)

/-- The group filter of lines 36-40: groups whose `accessibleSites`
contain the charger's site. -/
def authorizedGroupsOf (userGroups : List UserGroup) (charger : Charger) :
    List UserGroup :=
  userGroups.filter
    (fun group => group.accessibleSites.any (fun siteId => siteId == charger.site))

/-- The denial result the catch-all produces (line 94). -/
def systemErrorResult : Result :=
  { allowed := false, reason := some "System error occurred", ratePerKwh := none }

/-- The body of the `try` block of `authorizeAndPrice` (lines 15-91); an
early `return` is `Except.ok`, a thrown collaborator fault propagates as
`Except.error`. -/
def authorizeAndPriceAux (store : Store) (userId chargerId : String)
    (time : Date) : Except Unit Result := do
  let chargerOpt ← store.findCharger chargerId
  match chargerOpt with
  | none =>
    return { allowed := false, reason := some "Charger not found", ratePerKwh := none }
  | some charger =>
    if isPrivateNonBillable charger then
      return { allowed := true, reason := none, ratePerKwh := some 0 }
    else
      let userGroups ← store.findUserGroups userId
      if userGroups.length = 0 then
        return { allowed := false, reason := some "User has no group membership",
                 ratePerKwh := none }
      else
        let authorizedGroups := authorizedGroupsOf userGroups charger
        if authorizedGroups.length = 0 then
          return { allowed := false,
                   reason := some "User's groups do not have access to this site",
                   ratePerKwh := none }
        else
          let applicableTariffs ←
            store.findTariffs chargerId (authorizedGroups.map (fun g => g.id))
          match applicableTariffs with
          | [] =>
            return { allowed := false,
                     reason := some "No pricing tariff available for this charger",
                     ratePerKwh := none }
          | t0 :: rest =>
            let bestRate := bestRateLoop time.getHours (t0 :: rest) t0.ratePerKwh
            return { allowed := true, reason := none, ratePerKwh := some bestRate }

/-- `authorizeAndPrice` itself: the `try` body with the catch-all of
lines 92-95 turning any fault into the system-error denial. -/
def authorizeAndPrice (store : Store) (userId chargerId : String)
    (time : Date) : Result :=
  match authorizeAndPriceAux store userId chargerId time with
  | Except.ok r => r
  | Except.error _ => systemErrorResult


/-! ## Concrete stores used as witnesses -/

/-- A store whose charger lookup throws: models an unreachable entity
store. -/
def throwingStore : Store :=
  { findCharger := fun _ => Except.error (),
    findUserGroups := fun _ => Except.ok [],
    findTariffs := fun _ _ => Except.ok [] }

/-- A private, non-billable charger. -/
def freeCharger : Charger :=
  { site := "s9", accessType := AccessType.private_,
    billableType := some BillableType.non_billable, powerOutput := 7, tariffs := [] }

/-- A store returning `freeCharger`, whose group and tariff lookups both
throw — any evaluation that consulted them would surface a system error,
so a granted outcome shows they were never consulted. -/
def freeChargerStore : Store :=
  { findCharger := fun _ => Except.ok (some freeCharger),
    findUserGroups := fun _ => Except.error (),
    findTariffs := fun _ _ => Except.error () }

/-- A communal billable charger at site `s2`. -/
def communalCharger : Charger :=
  { site := "s2", accessType := AccessType.communal, billableType := none,
    powerOutput := 11, tariffs := [] }

/-- A store returning `communalCharger` where the user belongs to zero
groups and the tariff lookup throws. -/
def noGroupStore : Store :=
  { findCharger := fun _ => Except.ok (some communalCharger),
    findUserGroups := fun _ => Except.ok [],
    findTariffs := fun _ _ => Except.error () }

/-! ## Claims -/

/-- Claim C2: `evaluate` never propagates an exception: whenever the body
of the `try` block (`authorizeAndPriceAux`) raises a collaborator fault,
`authorizeAndPrice` still returns a `Result`, namely the
"System error occurred" denial — fail closed, never a grant and never a
raised fault. -/
theorem c2_collaborator_fault_becomes_system_error (store : Store)
    (userId chargerId : String) (time : Date) (e : Unit)
    (h : authorizeAndPriceAux store userId chargerId time = Except.error e) :
    authorizeAndPrice store userId chargerId time = systemErrorResult := by
  simp [authorizeAndPrice, h]

/-- Witness for C2: with a store whose charger lookup throws, the body
raises and the evaluation returns the system-error denial. -/
theorem c2_collaborator_fault_becomes_system_error_witness :
    authorizeAndPriceAux throwingStore "u1" "c1" { getHours := 0 } = Except.error () ∧
    authorizeAndPrice throwingStore "u1" "c1" { getHours := 0 } = systemErrorResult :=
  ⟨rfl, c2_collaborator_fault_becomes_system_error throwingStore "u1" "c1"
    { getHours := 0 } () rfl⟩

/-- Claim C3: a station that exists with AccessType `private` and
BillableType `non_billable` is granted at rate 0 for every user, every
timestamp and EVERY behaviour of the group and tariff lookups (they are
never consulted): the store is arbitrary apart from its answer for this
charger. -/
theorem c3_private_non_billable_grants_free (store : Store)
    (userId chargerId : String) (time : Date) (charger : Charger)
    (hfind : store.findCharger chargerId = Except.ok (some charger))
    (hpnb : isPrivateNonBillable charger) :
    authorizeAndPrice store userId chargerId time =
      { allowed := true, reason := none, ratePerKwh := some 0 } := by
  simp [authorizeAndPrice, authorizeAndPriceAux, hfind, Bind.bind, Except.bind,
    Pure.pure, Except.pure, if_pos hpnb]

/-- Witness for C3: a private non-billable charger in a store whose group
and tariff lookups throw is still granted at rate 0. -/
theorem c3_private_non_billable_grants_free_witness :
    isPrivateNonBillable freeCharger ∧
    authorizeAndPrice freeChargerStore "anyUser" "c9" { getHours := 23 } =
      { allowed := true, reason := none, ratePerKwh := some 0 } :=
  ⟨by decide, c3_private_non_billable_grants_free freeChargerStore "anyUser" "c9"
    { getHours := 23 } freeCharger rfl (by decide)⟩

/-- Claim C6: a user with zero groups is denied with the
"no group membership" reason on any existing, non-special-case station —
for every behaviour of the tariff lookup, which is never reached. -/
theorem c6_zero_groups_denied (store : Store) (userId chargerId : String)
    (time : Date) (charger : Charger)
    (hfind : store.findCharger chargerId = Except.ok (some charger))
    (hpnb : ¬ isPrivateNonBillable charger)
    (hgroups : store.findUserGroups userId = Except.ok []) :
    authorizeAndPrice store userId chargerId time =
      { allowed := false, reason := some "User has no group membership",
        ratePerKwh := none } := by
  simp [authorizeAndPrice, authorizeAndPriceAux, hfind, hgroups, Bind.bind,
    Except.bind, Pure.pure, Except.pure, if_neg hpnb]

/-- Witness for C6: a concrete groupless user on a communal charger, with
a throwing tariff lookup, is denied for lack of group membership. -/
theorem c6_zero_groups_denied_witness :
    ¬ isPrivateNonBillable communalCharger ∧
    authorizeAndPrice noGroupStore "u2" "c2" { getHours := 5 } =
      { allowed := false, reason := some "User has no group membership",
        ratePerKwh := none } :=
  ⟨by decide, c6_zero_groups_denied noGroupStore "u2" "c2" { getHours := 5 }
    communalCharger rfl (by decide) rfl⟩


/-- A tariff with two overlapping time rules, both covering hour 10, with
different multipliers. -/
def overlapTariff : Tariff :=
  { charger := "c4", group := "g4", ratePerKwh := 10,
    timeRules := some [{ startHour := 8, endHour := 13, rateMultiplier := 1/2 },
                       { startHour := 9, endHour := 12, rateMultiplier := 3 }] }

/-- Claim C4: the effective rate multiplies the base rate by the FIRST
stored rule whose half-open interval contains the hour, and falls back to
the unmodified base rate when no rule matches (including when there are no
rules at all, vacuously). -/
theorem c4_effective_rate_first_match (tariff : Tariff) (hour : Nat) :
    (∀ pre rule post, tariff.timeRules = some (pre ++ rule :: post) →
      rule.startHour ≤ hour ∧ hour < rule.endHour →
      (∀ q ∈ pre, ¬ (q.startHour ≤ hour ∧ hour < q.endHour)) →
      effectiveRate hour tariff = tariff.ratePerKwh * rule.rateMultiplier)
    ∧ ((∀ rules, tariff.timeRules = some rules →
        ∀ q ∈ rules, ¬ (q.startHour ≤ hour ∧ hour < q.endHour)) →
      effectiveRate hour tariff = tariff.ratePerKwh) := by
  constructor
  · intro pre rule post hrules hmatch hpre
    have hfindpre : pre.find? (hourMatches hour) = none := by
      rw [List.find?_eq_none]
      intro q hq
      simpa [hourMatches] using hpre q hq
    have hrule : hourMatches hour rule = true := by
      simpa [hourMatches] using hmatch
    simp [effectiveRate, hrules, List.find?_append, hfindpre,
      List.find?_cons_of_pos _ hrule]
  · intro hnone
    cases hrules : tariff.timeRules with
    | none => simp [effectiveRate, hrules]
    | some rules =>
      have hfind : rules.find? (hourMatches hour) = none := by
        rw [List.find?_eq_none]
        intro q hq
        simpa [hourMatches] using hnone rules hrules q hq
      simp [effectiveRate, hrules, hfind]

/-- Witness for C4: at hour 10 both rules of `overlapTariff` match, and
the first stored one (multiplier 1/2), not the second (multiplier 3), is
applied. -/
theorem c4_effective_rate_first_match_witness :
    effectiveRate 10 overlapTariff = overlapTariff.ratePerKwh * (1/2 : ℚ) :=
  (c4_effective_rate_first_match overlapTariff 10).1 []
    { startHour := 8, endHour := 13, rateMultiplier := 1/2 }
    [{ startHour := 9, endHour := 12, rateMultiplier := 3 }]
    rfl (by decide) (by simp)

/-- A tariff whose only time rule is a wrapping interval [22, 6). -/
def wrapTariff : Tariff :=
  { charger := "c9", group := "g9", ratePerKwh := 10,
    timeRules := some [{ startHour := 22, endHour := 6, rateMultiplier := 1/2 }] }

/-- Claim C9: a time rule with `startHour ≥ endHour` contains no hour at
all, so it never matches, and the effective rate computation behaves as if
the rule were deleted: it falls through to the later rules or the base
rate. -/
theorem c9_wrapping_rule_never_applies (rule : TimeRule)
    (hwrap : rule.endHour ≤ rule.startHour) :
    (∀ hour : Nat, hourMatches hour rule = false) ∧
    ∀ (hour : Nat) (tariff : Tariff) (rest : List TimeRule),
      tariff.timeRules = some (rule :: rest) →
      effectiveRate hour tariff =
        effectiveRate hour { tariff with timeRules := some rest } := by
  have hfalse : ∀ hour : Nat, hourMatches hour rule = false := by
    intro hour
    simp only [hourMatches, Bool.and_eq_false_imp, decide_eq_true_eq,
      decide_eq_false_iff_not, not_lt]
    omega
  refine ⟨hfalse, ?_⟩
  intro hour tariff rest hrules
  have hneg : ¬ (hourMatches hour rule = true) := by simp [hfalse hour]
  simp [effectiveRate, hrules, List.find?_cons_of_neg _ hneg]

/-- Witness for C9: the wrapping rule [22, 6) does not even match hour 23,
and `wrapTariff` prices hour 23 exactly as it would with the rule
removed. -/
theorem c9_wrapping_rule_never_applies_witness :
    hourMatches 23 { startHour := 22, endHour := 6, rateMultiplier := (1:ℚ)/2 } = false ∧
    effectiveRate 23 wrapTariff =
      effectiveRate 23 { wrapTariff with timeRules := some [] } :=
  ⟨(c9_wrapping_rule_never_applies
      { startHour := 22, endHour := 6, rateMultiplier := (1:ℚ)/2 } (by decide)).1 23,
   (c9_wrapping_rule_never_applies
      { startHour := 22, endHour := 6, rateMultiplier := (1:ℚ)/2 } (by decide)).2
      23 wrapTariff [] rfl⟩


/-- A public billable charger at site `s1`. -/
def siteCharger : Charger :=
  { site := "s1", accessType := AccessType.public,
    billableType := some BillableType.billable, powerOutput := 50, tariffs := [] }

/-- A group containing user `u1` with access to site `s1`. -/
def memberGroup : UserGroup :=
  { id := "g1", users := ["u1"], accessibleSites := ["s1"] }

/-- A store with site access in place but an empty tariff query result. -/
def noTariffStore : Store :=
  { findCharger := fun _ => Except.ok (some siteCharger),
    findUserGroups := fun _ => Except.ok [memberGroup],
    findTariffs := fun _ _ => Except.ok [] }

/-- Claim C5: when the station exists, is not the free special case, some
group is authorized for the site, but the tariff query returns no tariff,
the evaluation denies with the "no pricing tariff" reason — it never
grants free or defaulted pricing. -/
theorem c5_no_tariff_denied (store : Store) (userId chargerId : String)
    (time : Date) (charger : Charger) (userGroups : List UserGroup)
    (hfind : store.findCharger chargerId = Except.ok (some charger))
    (hpnb : ¬ isPrivateNonBillable charger)
    (hgroups : store.findUserGroups userId = Except.ok userGroups)
    (hauth : authorizedGroupsOf userGroups charger ≠ [])
    (htar : store.findTariffs chargerId
        ((authorizedGroupsOf userGroups charger).map (fun g => g.id)) =
      Except.ok []) :
    authorizeAndPrice store userId chargerId time =
      { allowed := false,
        reason := some "No pricing tariff available for this charger",
        ratePerKwh := none } := by
  have hne : userGroups ≠ [] := by
    intro h
    exact hauth (by simp [authorizedGroupsOf, h])
  simp [authorizeAndPrice, authorizeAndPriceAux, hfind, hgroups, htar, Bind.bind,
    Except.bind, Pure.pure, Except.pure, if_neg hpnb, hne, hauth]

/-- Witness for C5: user `u1` has site access to `siteCharger` but the
store holds no tariff, so the evaluation is the no-pricing denial. -/
theorem c5_no_tariff_denied_witness :
    ¬ isPrivateNonBillable siteCharger ∧
    authorizeAndPrice noTariffStore "u1" "c1" { getHours := 12 } =
      { allowed := false,
        reason := some "No pricing tariff available for this charger",
        ratePerKwh := none } :=
  ⟨by decide, c5_no_tariff_denied noTariffStore "u1" "c1" { getHours := 12 }
    siteCharger [memberGroup] rfl (by decide) rfl (by decide) rfl⟩

/-- Claim C7: outside the private/non-billable special case the decision
is independent of AccessType and BillableType: two stations identical in
every other field (site, power, tariff references), served by stores that
agree on the group and tariff lookups, produce identical decisions for
every user and timestamp. -/
theorem c7_access_type_not_distinguished (s1 s2 : Store)
    (userId chargerId : String) (time : Date) (charger1 charger2 : Charger)
    (hfind1 : s1.findCharger chargerId = Except.ok (some charger1))
    (hfind2 : s2.findCharger chargerId = Except.ok (some charger2))
    (hg : s1.findUserGroups = s2.findUserGroups)
    (ht : s1.findTariffs = s2.findTariffs)
    (hsite : charger1.site = charger2.site)
    (_hpow : charger1.powerOutput = charger2.powerOutput)
    (_htariffs : charger1.tariffs = charger2.tariffs)
    (hpnb1 : ¬ isPrivateNonBillable charger1)
    (hpnb2 : ¬ isPrivateNonBillable charger2) :
    authorizeAndPrice s1 userId chargerId time =
      authorizeAndPrice s2 userId chargerId time := by
  have hag : ∀ gs, authorizedGroupsOf gs charger1 = authorizedGroupsOf gs charger2 := by
    intro gs
    simp [authorizedGroupsOf, hsite]
  cases hgu : s1.findUserGroups userId with
  | error e =>
    have hgu2 : s2.findUserGroups userId = Except.error e := by
      rw [← hg]; exact hgu
    simp [authorizeAndPrice, authorizeAndPriceAux, hfind1, hfind2, hgu, hgu2,
      Bind.bind, Except.bind, if_neg hpnb1, if_neg hpnb2]
  | ok gs =>
    have hgu2 : s2.findUserGroups userId = Except.ok gs := by
      rw [← hg]; exact hgu
    simp [authorizeAndPrice, authorizeAndPriceAux, hfind1, hfind2, hgu, hgu2,
      Bind.bind, Except.bind, Pure.pure, Except.pure, if_neg hpnb1, if_neg hpnb2,
      hag, ht]

/-- A public billable charger at site `s3`. -/
def publicCharger : Charger :=
  { site := "s3", accessType := AccessType.public,
    billableType := some BillableType.billable, powerOutput := 50, tariffs := ["t3"] }

/-- The same charger as `publicCharger` except protected and without a
billable type. -/
def protectedCharger : Charger :=
  { site := "s3", accessType := AccessType.protected_, billableType := none,
    powerOutput := 50, tariffs := ["t3"] }

/-- A group containing user `u3` with access to site `s3`. -/
def siteGroup3 : UserGroup :=
  { id := "g3", users := ["u3"], accessibleSites := ["s3"] }

/-- A flat tariff for (charger c3, group g3). -/
def tariff3 : Tariff :=
  { charger := "c3", group := "g3", ratePerKwh := 2, timeRules := none }

/-- A store serving `publicCharger` with one applicable tariff. -/
def publicStore : Store :=
  { findCharger := fun _ => Except.ok (some publicCharger),
    findUserGroups := fun _ => Except.ok [siteGroup3],
    findTariffs := fun _ _ => Except.ok [tariff3] }

/-- The same store as `publicStore` except it serves `protectedCharger`. -/
def protectedStore : Store :=
  { findCharger := fun _ => Except.ok (some protectedCharger),
    findUserGroups := publicStore.findUserGroups,
    findTariffs := publicStore.findTariffs }

/-- Witness for C7: swapping the charger's access type from public to
protected (and dropping its billable type) leaves the concrete decision
unchanged. -/
theorem c7_access_type_not_distinguished_witness :
    publicCharger.site = protectedCharger.site ∧
    authorizeAndPrice publicStore "u3" "c3" { getHours := 8 } =
      authorizeAndPrice protectedStore "u3" "c3" { getHours := 8 } :=
  ⟨rfl, c7_access_type_not_distinguished publicStore protectedStore "u3" "c3"
    { getHours := 8 } publicCharger protectedCharger rfl rfl rfl rfl rfl rfl rfl
    (by decide) (by decide)⟩


/-- A public billable charger at site `s8`. -/
def nonNegCharger : Charger :=
  { site := "s8", accessType := AccessType.public,
    billableType := some BillableType.billable, powerOutput := 22, tariffs := ["t8"] }

/-- A group containing user `u8` with access to site `s8`. -/
def nonNegGroup : UserGroup :=
  { id := "g8", users := ["u8"], accessibleSites := ["s8"] }

/-- A flat 0.30/kWh tariff with no time rules. -/
def nonNegTariff : Tariff :=
  { charger := "c8", group := "g8", ratePerKwh := 3/10, timeRules := none }

/-- A store pricing `nonNegCharger` by `nonNegTariff` for `nonNegGroup`. -/
def publicNonNegStore : Store :=
  { findCharger := fun _ => Except.ok (some nonNegCharger),
    findUserGroups := fun _ => Except.ok [nonNegGroup],
    findTariffs := fun _ _ => Except.ok [nonNegTariff] }

/-- Exhaustive case analysis of `authorizeAndPrice`: every evaluation
produces one of the source's seven literal results — the five denials, the
free grant, or a priced grant computed by the pricing loop over a
non-empty tariff list the store returned. -/
theorem authorizeAndPrice_shape (store : Store) (userId chargerId : String)
    (time : Date) :
    authorizeAndPrice store userId chargerId time = systemErrorResult ∨
    authorizeAndPrice store userId chargerId time =
      { allowed := false, reason := some "Charger not found", ratePerKwh := none } ∨
    authorizeAndPrice store userId chargerId time =
      { allowed := true, reason := none, ratePerKwh := some 0 } ∨
    authorizeAndPrice store userId chargerId time =
      { allowed := false, reason := some "User has no group membership",
        ratePerKwh := none } ∨
    authorizeAndPrice store userId chargerId time =
      { allowed := false, reason := some "User's groups do not have access to this site",
        ratePerKwh := none } ∨
    authorizeAndPrice store userId chargerId time =
      { allowed := false, reason := some "No pricing tariff available for this charger",
        ratePerKwh := none } ∨
    ∃ t0 rest groupIds,
      store.findTariffs chargerId groupIds = Except.ok (t0 :: rest) ∧
      authorizeAndPrice store userId chargerId time =
        { allowed := true, reason := none,
          ratePerKwh := some (bestRateLoop time.getHours (t0 :: rest) t0.ratePerKwh) } := by
  cases hc : store.findCharger chargerId with
  | error e =>
    left
    simp [authorizeAndPrice, authorizeAndPriceAux, hc, Bind.bind, Except.bind]
  | ok chargerOpt =>
    cases chargerOpt with
    | none =>
      right; left
      simp [authorizeAndPrice, authorizeAndPriceAux, hc, Bind.bind, Except.bind,
        Pure.pure, Except.pure]
    | some charger =>
      by_cases hpnb : isPrivateNonBillable charger
      · right; right; left
        simp [authorizeAndPrice, authorizeAndPriceAux, hc, Bind.bind, Except.bind,
          Pure.pure, Except.pure, if_pos hpnb]
      · cases hg : store.findUserGroups userId with
        | error e =>
          left
          simp [authorizeAndPrice, authorizeAndPriceAux, hc, hg, Bind.bind,
            Except.bind, if_neg hpnb]
        | ok gs =>
          by_cases hnil : gs = []
          · subst hnil
            right; right; right; left
            simp [authorizeAndPrice, authorizeAndPriceAux, hc, hg, Bind.bind,
              Except.bind, Pure.pure, Except.pure, if_neg hpnb]
          · by_cases hag : authorizedGroupsOf gs charger = []
            · right; right; right; right; left
              simp [authorizeAndPrice, authorizeAndPriceAux, hc, hg, Bind.bind,
                Except.bind, Pure.pure, Except.pure, if_neg hpnb, hnil, hag]
            · cases htf : store.findTariffs chargerId
                ((authorizedGroupsOf gs charger).map (fun g => g.id)) with
              | error e =>
                left
                simp [authorizeAndPrice, authorizeAndPriceAux, hc, hg, htf,
                  Bind.bind, Except.bind, if_neg hpnb, hnil, hag]
              | ok tariffs =>
                cases tariffs with
                | nil =>
                  right; right; right; right; right; left
                  simp [authorizeAndPrice, authorizeAndPriceAux, hc, hg, htf,
                    Bind.bind, Except.bind, Pure.pure, Except.pure, if_neg hpnb,
                    hnil, hag]
                | cons t0 rest =>
                  right; right; right; right; right; right
                  refine ⟨t0, rest, (authorizedGroupsOf gs charger).map (fun g => g.id),
                    htf, ?_⟩
                  simp [authorizeAndPrice, authorizeAndPriceAux, hc, hg, htf,
                    Bind.bind, Except.bind, Pure.pure, Except.pure, if_neg hpnb,
                    hnil, hag]

/-- A tariff's effective rate is non-negative whenever its base rate and
all its multipliers are. -/
theorem effectiveRate_nonneg (hour : Nat) (tariff : Tariff)
    (hbase : 0 ≤ tariff.ratePerKwh)
    (hmul : ∀ rules, tariff.timeRules = some rules →
      ∀ r ∈ rules, 0 ≤ r.rateMultiplier) :
    0 ≤ effectiveRate hour tariff := by
  cases hrules : tariff.timeRules with
  | none => simpa [effectiveRate, hrules] using hbase
  | some rules =>
    cases hfind : rules.find? (hourMatches hour) with
    | none => simpa [effectiveRate, hrules, hfind] using hbase
    | some r =>
      have hr : 0 ≤ r.rateMultiplier :=
        hmul rules hrules r (List.mem_of_find?_eq_some hfind)
      simpa [effectiveRate, hrules, hfind] using mul_nonneg hbase hr

/-- The pricing fold stays non-negative when its accumulator and every
effective rate it sees are non-negative. -/
theorem bestRateLoop_nonneg (hour : Nat) (tariffs : List Tariff) (acc : ℚ)
    (hacc : 0 ≤ acc) (h : ∀ t ∈ tariffs, 0 ≤ effectiveRate hour t) :
    0 ≤ bestRateLoop hour tariffs acc := by
  induction tariffs generalizing acc with
  | nil => simpa [bestRateLoop] using hacc
  | cons t rest ih =>
    have hstep : bestRateLoop hour (t :: rest) acc =
        bestRateLoop hour rest
          (if effectiveRate hour t < acc then effectiveRate hour t else acc) := rfl
    rw [hstep]
    refine ih _ ?_ ?_
    · split
      · exact h t (by simp)
      · exact hacc
    · intro q hq
      exact h q (by simp [hq])

/-- Claim C8: whenever every tariff the store can return has a
non-negative base rate and non-negative multipliers, any granted rate is
non-negative — including the fixed 0 of the free special case. -/
theorem c8_granted_rate_nonneg (store : Store) (userId chargerId : String)
    (time : Date)
    (hstore : ∀ cid groupIds tariffs,
      store.findTariffs cid groupIds = Except.ok tariffs →
      ∀ t ∈ tariffs, 0 ≤ t.ratePerKwh ∧
        ∀ rules, t.timeRules = some rules → ∀ r ∈ rules, 0 ≤ r.rateMultiplier)
    (rate : ℚ)
    (hrate : (authorizeAndPrice store userId chargerId time).ratePerKwh = some rate) :
    0 ≤ rate := by
  rcases authorizeAndPrice_shape store userId chargerId time with
    h | h | h | h | h | h | ⟨t0, rest, groupIds, htf, h⟩ <;> rw [h] at hrate
  · simp [systemErrorResult] at hrate
  · simp at hrate
  · rw [Option.some_inj] at hrate
    subst hrate
    norm_num
  · simp at hrate
  · simp at hrate
  · simp at hrate
  · simp at hrate
    subst hrate
    have hmem := hstore chargerId groupIds (t0 :: rest) htf
    refine bestRateLoop_nonneg time.getHours (t0 :: rest) t0.ratePerKwh
      (hmem t0 (by simp)).1 ?_
    intro q hq
    exact effectiveRate_nonneg time.getHours q (hmem q hq).1 (hmem q hq).2

/-- Witness for C8: a concrete store with one non-negative tariff yields
the granted rate 3/10, which is non-negative. -/
theorem c8_granted_rate_nonneg_witness :
    (authorizeAndPrice publicNonNegStore "u8" "c8" { getHours := 12 }).ratePerKwh =
      some (3/10 : ℚ) ∧ (0:ℚ) ≤ 3/10 :=
  ⟨by simp [authorizeAndPrice, authorizeAndPriceAux, publicNonNegStore, nonNegCharger,
      nonNegGroup, nonNegTariff, bestRateLoop, effectiveRate, authorizedGroupsOf,
      isPrivateNonBillable, Bind.bind, Except.bind, Pure.pure, Except.pure],
   c8_granted_rate_nonneg publicNonNegStore "u8" "c8" { getHours := 12 }
    (by
      intro cid groupIds tariffs htf q hq
      have : tariffs = [nonNegTariff] := by
        simpa [publicNonNegStore] using htf.symm
      subst this
      simp at hq
      subst hq
      refine ⟨by norm_num [nonNegTariff], ?_⟩
      intro rules hrules r hr
      simp [nonNegTariff] at hrules)
    (3/10)
    (by simp [authorizeAndPrice, authorizeAndPriceAux, publicNonNegStore, nonNegCharger,
      nonNegGroup, nonNegTariff, bestRateLoop, effectiveRate, authorizedGroupsOf,
      isPrivateNonBillable, Bind.bind, Except.bind, Pure.pure, Except.pure])⟩


/-- Claim C10: every result is well-formed — a grant carries a rate and no
reason; a denial carries no rate and one of the five denial reason
strings. -/
theorem c10_result_well_formed (store : Store) (userId chargerId : String)
    (time : Date) :
    ((authorizeAndPrice store userId chargerId time).allowed = true ∧
      (authorizeAndPrice store userId chargerId time).reason = none ∧
      ((authorizeAndPrice store userId chargerId time).ratePerKwh).isSome = true) ∨
    ((authorizeAndPrice store userId chargerId time).allowed = false ∧
      (authorizeAndPrice store userId chargerId time).ratePerKwh = none ∧
      ∃ msg, (authorizeAndPrice store userId chargerId time).reason = some msg ∧
        (msg = "Charger not found" ∨
         msg = "User has no group membership" ∨
         msg = "User's groups do not have access to this site" ∨
         msg = "No pricing tariff available for this charger" ∨
         msg = "System error occurred")) := by
  rcases authorizeAndPrice_shape store userId chargerId time with
    h | h | h | h | h | h | ⟨t0, rest, groupIds, htf, h⟩ <;>
    rw [h] <;> simp [systemErrorResult]

/-- A group containing user `u1` with access to site `s1` (C1 input). -/
def surchargeGroup : UserGroup :=
  { id := "g1", users := ["u1"], accessibleSites := ["s1"] }

/-- A public billable charger at site `s1` (C1 input). -/
def surchargeCharger : Charger :=
  { site := "s1", accessType := AccessType.public,
    billableType := some BillableType.billable, powerOutput := 22, tariffs := ["t1"] }

/-- A tariff with base rate 10 and a doubling time rule over [0, 6)
(C1 input): at hour 3 its only effective rate is 20. -/
def surchargeTariff : Tariff :=
  { charger := "c1", group := "g1", ratePerKwh := 10,
    timeRules := some [{ startHour := 0, endHour := 6, rateMultiplier := 2 }] }

/-- The store for the C1 failing input: exactly one applicable tariff,
`surchargeTariff`. -/
def surchargeStore : Store :=
  { findCharger := fun cid =>
      if cid = "c1" then Except.ok (some surchargeCharger) else Except.ok none,
    findUserGroups := fun _ => Except.ok [surchargeGroup],
    findTariffs := fun _ _ => Except.ok [surchargeTariff] }

/-- Claim C1 fails on the source: with a single applicable tariff whose
active time rule doubles the base rate 10, the only candidate effective
rate at hour 3 is 20, yet the evaluation grants rate 10 — the loop's
accumulator is initialized to `applicableTariffs[0].ratePerKwh`, the first
tariff's unmodified base rate, so the returned rate is the minimum of that
base rate and the effective rates, not the minimum effective rate. -/
theorem c1_best_rate_init_divergence :
    surchargeStore.findTariffs "c1" ["g1"] = Except.ok [surchargeTariff] ∧
    effectiveRate 3 surchargeTariff = 20 ∧
    authorizeAndPrice surchargeStore "u1" "c1" { getHours := 3 } =
      { allowed := true, reason := none, ratePerKwh := some 10 } :=
  ⟨rfl,
   by
     simp [effectiveRate, hourMatches, surchargeTariff, List.find?]
     norm_num,
   by simp [authorizeAndPrice, authorizeAndPriceAux, surchargeStore, surchargeGroup,
      surchargeTariff, surchargeCharger, bestRateLoop, effectiveRate, hourMatches,
      authorizedGroupsOf, isPrivateNonBillable, Bind.bind, Except.bind,
      Pure.pure, Except.pure]⟩

end BrimCharges
